import Mathlib

/-!
Shallow embedding of `src/server.go` (simple-server): a single Go process
hosting four network listeners — an HTTP server on port 8080 with a
catch-all root handler and an `/upload` handler, a UDP echo loop on
port 53 with a 512-byte buffer, a raw ICMP echo loop with a 1024-byte
buffer, and a TCP greeting server on port 25.

Handlers are modelled as functions producing ordered event traces;
environment outcomes that the code branches on (bind results, the result
of `r.FormFile`, the outcome of `io.Copy`) are explicit parameters.
-/

/-- Bytes of a network payload, one `Nat` per byte. -/
abbrev Bytes := List Nat

/-- An inbound HTTP request as seen by a handler: method, URL path,
peer address, and the outcome of parsing the multipart `file` field
(`r.FormFile("file")` in the source): either the file content or an
error. -/
structure Request where
  method : String
  path : String
  remoteAddr : String
  formFile : Except String Bytes

/-- Observable events emitted by the HTTP handlers, in program order. -/
inductive Event
  | logRequest (method : String) (path : String) (addr : String)
  | logLine (s : String)
  | formFileCall
  | stdoutWrite (b : Bytes)
  | respond (status : Nat) (body : String)
  | closeFile
deriving DecidableEq, Repr

/-- Outcome of the `io.Copy(os.Stdout, file)` call: either it copies the
whole content, or it fails after writing the first `k` bytes. -/
inductive CopyOutcome
  | ok
  | failAfter (k : Nat)
deriving DecidableEq, Repr

/-- Bytes actually written to stdout by `io.Copy` for a given outcome. -/
def copiedBytes (c : CopyOutcome) (content : Bytes) : Bytes :=
  match c with
  | .ok => content
  | .failAfter k => content.take k

/-- Fixed body written by the root handler (server.go line 18). -/
def httpOkBody : String := "HTTP server is working!\n"

/-- Root handler (server.go lines 16-19): logs method, URL and peer,
then writes the fixed body; `w.Write` without `WriteHeader` responds
with status 200. -/
def rootHandler (r : Request) : List Event :=
  [ .logRequest r.method r.path r.remoteAddr,
    .respond 200 httpOkBody ]

/-- Upload handler (server.go lines 20-34): rejects non-POST with 405
(`http.Error` appends a newline to its message); calls
`r.FormFile("file")`, replying 400 on error; on success registers
`defer file.Close()`, logs, copies the file to stdout discarding the
copy error, writes the success body (implicit 200), and the deferred
close runs on handler exit. -/
def uploadHandler (r : Request) (c : CopyOutcome) : List Event :=
  if r.method ≠ "POST" then
    [ .respond 405 "Invalid method\n" ]
  else
    .formFileCall ::
    match r.formFile with
    | .error _ => [ .respond 400 "Failed to get file\n" ]
    | .ok content =>
        [ .logLine "File uploaded successfully",
          .stdoutWrite (copiedBytes c content),
          .respond 200 "File upload successful\n",
          .closeFile ]

/-- Route resolution of Go's `http.ServeMux` with patterns `/` and
`/upload` registered (server.go lines 16 and 20), over canonical request
paths: the exact-match pattern `/upload` takes the upload handler, and
the pattern `/` is the catch-all for every other path. -/
def serveMux (r : Request) (c : CopyOutcome) : List Event :=
  if r.path = "/upload" then uploadHandler r c else rootHandler r

/-- Whether an event is the production of response bytes. -/
def Event.isRespond : Event → Bool
  | .respond _ _ => true
  | _ => false

/-- Status and body of the (first) response produced in a trace. -/
def responseOf (tr : List Event) : Option (Nat × String) :=
  tr.findSome? fun e =>
    match e with
    | .respond s b => some (s, b)
    | _ => none

/-- All stdout payloads written in a trace, in order. -/
def stdoutWrites (tr : List Event) : List Bytes :=
  tr.filterMap fun e =>
    match e with
    | .stdoutWrite b => some b
    | _ => none

/-- The request-log record with the given method, path and peer address
occurs in the trace strictly before any response bytes are produced. -/
def loggedBeforeResponse (tr : List Event) (m p a : String) : Prop :=
  Event.logRequest m p a ∈ tr.takeWhile (fun e => ! e.isRespond)

/-- Buffer size of the DNS (UDP) listener (server.go line 48). -/
def dnsBufSize : Nat := 512

/-- Buffer size of the ICMP (raw) listener (server.go line 69). -/
def icmpBufSize : Nat := 1024

/-- Model of `pc.ReadFrom(buf)` on a packet connection with a buffer of
`bufSize` bytes receiving datagram `d`: returns the byte count `n`
(capped by the buffer) and the buffer content, whose first `n` bytes are
the first `n` bytes of `d`. -/
def readFromBuf (bufSize : Nat) (d : Bytes) : Nat × Bytes :=
  (min d.length bufSize, d.take bufSize)

/-- One receive-and-echo cycle of a datagram listener (server.go
lines 50-56 and 71-77): read into the buffer, then write `buf[:n]` back
to the sender. -/
def echoDatagram (bufSize : Nat) (d : Bytes) : Bytes :=
  let r := readFromBuf bufSize d
  r.2.take r.1

/-- One iteration outcome of `pc.ReadFrom` inside a receive loop: either
an error or an inbound datagram. -/
inductive RecvEvent
  | recvErr (e : String)
  | recvMsg (d : Bytes)
deriving DecidableEq, Repr

/-- Observable events of one receive-loop iteration. -/
inductive LoopEvent
  | logRecvError (e : String)
  | logInbound
  | reply (b : Bytes)
deriving DecidableEq, Repr

/-- What the loop body does after one iteration: go to the next
iteration, or terminate the process. -/
inductive LoopOutcome
  | continueLoop
  | exitProc
deriving DecidableEq, Repr

/-- Body of the DNS/ICMP receive loop (server.go lines 50-56, 71-77):
on a read error, `log.Printf` and `continue`; on a datagram, log the
sender and echo `buf[:n]` back. No branch exits the process. -/
def echoLoopBody (bufSize : Nat) (ev : RecvEvent) : List LoopEvent × LoopOutcome :=
  match ev with
  | .recvErr e => ([ .logRecvError e ], .continueLoop)
  | .recvMsg d => ([ .logInbound, .reply (echoDatagram bufSize d) ], .continueLoop)

/-- Trace of the receive loop run over a finite prefix of iteration
outcomes. -/
def echoLoopTrace (bufSize : Nat) : List RecvEvent → List LoopEvent
  | [] => []
  | ev :: rest => (echoLoopBody bufSize ev).1 ++ echoLoopTrace bufSize rest

/-- Replies sent during a loop trace, in order. -/
def loopReplies (tr : List LoopEvent) : List Bytes :=
  tr.filterMap fun e =>
    match e with
    | .reply b => some b
    | _ => none

/-- Bind results of the four listeners at process start (`main`,
server.go lines 106-114, launches all four as goroutines). -/
structure BindEnv where
  httpBind : Except String Unit
  dnsBind : Except String Unit
  icmpBind : Except String Unit
  smtpBind : Except String Unit

/-- Whether a bind attempt failed. -/
def bindFails (b : Except String Unit) : Bool :=
  match b with
  | .error _ => true
  | .ok _ => false

/-- Every listener reacts to its own bind error with `log.Fatalf`
(server.go lines 36, 43, 64, 85), which logs and then calls
`os.Exit(1)`: `os.Exit` terminates the whole process, all goroutines
included. So the process exits whenever any listener's bind fails. -/
def processExits (env : BindEnv) : Bool :=
  bindFails env.httpBind || bindFails env.dnsBind ||
  bindFails env.icmpBind || bindFails env.smtpBind

/-- A listener keeps running only if its own bind succeeded and the
process was not terminated by some listener's `log.Fatalf`. -/
def listenerRuns (env : BindEnv) (own : Except String Unit) : Bool :=
  !bindFails own && !processExits env

/-- The HTTP listener is running after startup. -/
def httpRunning (env : BindEnv) : Bool := listenerRuns env env.httpBind

/-- The DNS listener is running after startup. -/
def dnsRunning (env : BindEnv) : Bool := listenerRuns env env.dnsBind

/-- The ICMP listener is running after startup. -/
def icmpRunning (env : BindEnv) : Bool := listenerRuns env env.icmpBind

/-- The SMTP listener is running after startup. -/
def smtpRunning (env : BindEnv) : Bool := listenerRuns env env.smtpBind

/-- Number of listeners whose bind failed. -/
def failCount (env : BindEnv) : Nat :=
  (if bindFails env.httpBind then 1 else 0) +
  (if bindFails env.dnsBind then 1 else 0) +
  (if bindFails env.icmpBind then 1 else 0) +
  (if bindFails env.smtpBind then 1 else 0)

/-- Observable events on one accepted SMTP connection. -/
inductive ConnEvent
  | logPeer (addr : String)
  | writeConn (s : String)
  | readConn
  | sleepSeconds (n : Nat)
  | closeConn
deriving DecidableEq, Repr

/-- The greeting line written by the SMTP handler (server.go line 99). -/
def smtpGreeting : String := "220 Simple SMTP Test Server\n"

/-- Per-connection SMTP handler (server.go lines 96-101): `defer
c.Close()`, log the peer, write the greeting — the result of `c.Write`
is discarded, so `writeResult` does not change the control flow — sleep
10 seconds, then the deferred close runs. The handler never reads. -/
def smtpHandler (peer : String) (writeResult : Except String Nat) : List ConnEvent :=
  [ .logPeer peer,
    .writeConn smtpGreeting,
    .sleepSeconds 10,
    .closeConn ]

/-- Connection writes performed during a connection trace. -/
def connWrites (tr : List ConnEvent) : List String :=
  tr.filterMap fun e =>
    match e with
    | .writeConn s => some s
    | _ => none

/-- Concrete startup environment where only the DNS bind fails. -/
def envDnsFail : BindEnv :=
  { httpBind := .ok (), dnsBind := .error "listen udp :53: bind: permission denied",
    icmpBind := .ok (), smtpBind := .ok () }

/-- Concrete GET request to the upload route. -/
def getUploadReq : Request :=
  { method := "GET", path := "/upload", remoteAddr := "192.0.2.1:1000",
    formFile := .error "request Content-Type is not multipart" }

/-- Concrete POST to the upload route with no `file` field. -/
def postNoFileReq : Request :=
  { method := "POST", path := "/upload", remoteAddr := "192.0.2.2:1001",
    formFile := .error "http: no such file" }

/-- Concrete POST to the upload route with a valid `file` field whose
content is the two bytes `Hi`. -/
def postFileReq : Request :=
  { method := "POST", path := "/upload", remoteAddr := "192.0.2.3:1002",
    formFile := .ok [72, 105] }

/-- Concrete GET request to the root path. -/
def rootReq : Request :=
  { method := "GET", path := "/", remoteAddr := "192.0.2.4:1003",
    formFile := .error "request Content-Type is not multipart" }

/-- Concrete GET request to an unregistered path. -/
def otherPathReq : Request :=
  { method := "GET", path := "/missing", remoteAddr := "192.0.2.5:1004",
    formFile := .error "request Content-Type is not multipart" }

/-- Echoing a datagram that fits in the receive buffer returns it
unchanged. -/
theorem echoDatagram_of_le (b : Nat) (d : Bytes) (h : d.length ≤ b) :
    echoDatagram b d = d := by
  unfold echoDatagram readFromBuf
  rw [List.take_of_length_le h, min_eq_left h, List.take_length]

/-- Claim C1 counterexample: in the startup environment where exactly
the DNS bind fails, the three sibling listeners do not keep running —
the DNS listener's `log.Fatalf` exits the whole process. -/
theorem bind_failure_not_isolated_cex :
    failCount envDnsFail = 1 ∧ bindFails envDnsFail.dnsBind = true ∧
    httpRunning envDnsFail = false ∧ icmpRunning envDnsFail = false ∧
    smtpRunning envDnsFail = false := by
  decide

/-- Claim C1 (amended): a bind failure at startup of any listener calls
`log.Fatalf`, which exits the entire process, so the failing listener
aborts and none of the sibling listeners continues running. -/
theorem bind_failure_kills_all_listeners (env : BindEnv)
    (h : processExits env = true) :
    httpRunning env = false ∧ dnsRunning env = false ∧
    icmpRunning env = false ∧ smtpRunning env = false := by
  simp [httpRunning, dnsRunning, icmpRunning, smtpRunning, listenerRuns, h]

/-- Witness for the amended C1 at the concrete environment where the
DNS bind fails. -/
theorem bind_failure_kills_all_listeners_witness :
    httpRunning envDnsFail = false ∧ dnsRunning envDnsFail = false ∧
    icmpRunning envDnsFail = false ∧ smtpRunning envDnsFail = false :=
  bind_failure_kills_all_listeners envDnsFail (by decide)

/-- Claim C2: any datagram of at most 512 bytes received by the DNS
listener, and any unit of at most 1024 bytes received by the ICMP
listener, is echoed back to the sender byte for byte. -/
theorem echo_replies_exact (d : Bytes) :
    (d.length ≤ 512 → echoDatagram dnsBufSize d = d) ∧
    (d.length ≤ 1024 → echoDatagram icmpBufSize d = d) := by
  constructor
  · intro h
    exact echoDatagram_of_le dnsBufSize d (by simpa [dnsBufSize] using h)
  · intro h
    exact echoDatagram_of_le icmpBufSize d (by simpa [icmpBufSize] using h)

/-- Witness for C2 on the concrete three-byte datagram `[7, 8, 9]`. -/
theorem echo_replies_exact_witness :
    echoDatagram dnsBufSize [7, 8, 9] = [7, 8, 9] ∧
    echoDatagram icmpBufSize [7, 8, 9] = [7, 8, 9] :=
  ⟨(echo_replies_exact [7, 8, 9]).1 (by decide),
   (echo_replies_exact [7, 8, 9]).2 (by decide)⟩

/-- Claim C3: for every accepted SMTP connection and every outcome of
the greeting write, the handler writes exactly the greeting line as its
only output, never reads, sleeps 10 seconds, and closes the connection
as its final action — so the connection is closed on every exit path,
including when the write fails. -/
theorem smtp_handler_contract (peer : String) (writeResult : Except String Nat) :
    connWrites (smtpHandler peer writeResult) = [smtpGreeting] ∧
    ConnEvent.readConn ∉ smtpHandler peer writeResult ∧
    ConnEvent.sleepSeconds 10 ∈ smtpHandler peer writeResult ∧
    (smtpHandler peer writeResult).getLast? = some ConnEvent.closeConn ∧
    ConnEvent.closeConn ∈ smtpHandler peer writeResult := by
  refine ⟨rfl, ?_, ?_, rfl, ?_⟩ <;> simp [smtpHandler]

/-- Claim C4 counterexample: the concrete POST to `/upload` produces no
request-log record with its method, path and peer address at all, in
particular none before the response. -/
theorem upload_request_not_logged_cex :
    Event.logRequest "POST" "/upload" "192.0.2.3:1002" ∉
      serveMux postFileReq CopyOutcome.ok ∧
    ¬ loggedBeforeResponse (serveMux postFileReq CopyOutcome.ok)
      "POST" "/upload" "192.0.2.3:1002" := by
  unfold loggedBeforeResponse
  constructor <;> decide

/-- Claim C4 (amended): only requests handled by the root catch-all
handler — every path other than `/upload` — are logged with method,
path and peer address before any response bytes are produced; requests
routed to `/upload` emit no such record. -/
theorem root_requests_logged_before_response (r : Request) (c : CopyOutcome)
    (h : r.path ≠ "/upload") :
    loggedBeforeResponse (serveMux r c) r.method r.path r.remoteAddr := by
  simp [serveMux, h, rootHandler, loggedBeforeResponse, Event.isRespond]

/-- Witness for the amended C4 at the concrete root request. -/
theorem root_requests_logged_before_response_witness :
    loggedBeforeResponse (serveMux rootReq CopyOutcome.ok)
      rootReq.method rootReq.path rootReq.remoteAddr :=
  root_requests_logged_before_response rootReq CopyOutcome.ok (by decide)

/-- Claim C5: a request to the upload route whose method is not POST is
answered with status 405 and the `http.Error` message; the handler
performs no form parsing and writes nothing to stdout. -/
theorem upload_non_post_405 (r : Request) (c : CopyOutcome)
    (hpath : r.path = "/upload") (hm : r.method ≠ "POST") :
    responseOf (serveMux r c) = some (405, "Invalid method\n") ∧
    stdoutWrites (serveMux r c) = [] ∧
    Event.formFileCall ∉ serveMux r c := by
  refine ⟨?_, ?_, ?_⟩ <;>
    simp [serveMux, hpath, uploadHandler, hm, responseOf, stdoutWrites]

/-- Witness for C5 at the concrete GET request to `/upload`. -/
theorem upload_non_post_405_witness :
    responseOf (serveMux getUploadReq CopyOutcome.ok) =
      some (405, "Invalid method\n") ∧
    stdoutWrites (serveMux getUploadReq CopyOutcome.ok) = [] ∧
    Event.formFileCall ∉ serveMux getUploadReq CopyOutcome.ok :=
  upload_non_post_405 getUploadReq CopyOutcome.ok rfl (by decide)

/-- Claim C6: a POST to the upload route whose `file` field cannot be
extracted is answered with status 400 and the `http.Error` message, and
nothing is written to stdout for that request. -/
theorem upload_missing_file_400 (r : Request) (c : CopyOutcome) (e : String)
    (hpath : r.path = "/upload") (hm : r.method = "POST")
    (hf : r.formFile = Except.error e) :
    responseOf (serveMux r c) = some (400, "Failed to get file\n") ∧
    stdoutWrites (serveMux r c) = [] := by
  constructor <;>
    simp [serveMux, hpath, uploadHandler, hm, hf, responseOf, stdoutWrites]

/-- Witness for C6 at the concrete POST with no `file` field. -/
theorem upload_missing_file_400_witness :
    responseOf (serveMux postNoFileReq CopyOutcome.ok) =
      some (400, "Failed to get file\n") ∧
    stdoutWrites (serveMux postNoFileReq CopyOutcome.ok) = [] :=
  upload_missing_file_400 postNoFileReq CopyOutcome.ok "http: no such file"
    rfl rfl rfl

/-- Claim C7: a POST to the upload route with a valid `file` field of
content `content` is answered with status 200 and the success message,
the uploaded file stream is closed on every copy outcome, and when the
stdout copy succeeds the content is written to stdout exactly once. -/
theorem upload_success_200 (r : Request) (c : CopyOutcome) (content : Bytes)
    (hpath : r.path = "/upload") (hm : r.method = "POST")
    (hf : r.formFile = Except.ok content) :
    responseOf (serveMux r c) = some (200, "File upload successful\n") ∧
    Event.closeFile ∈ serveMux r c ∧
    (c = CopyOutcome.ok → stdoutWrites (serveMux r c) = [content]) := by
  refine ⟨?_, ?_, ?_⟩
  · simp [serveMux, hpath, uploadHandler, hm, hf, responseOf]
  · simp [serveMux, hpath, uploadHandler, hm, hf]
  · intro hc
    subst hc
    simp [serveMux, hpath, uploadHandler, hm, hf, stdoutWrites, copiedBytes]

/-- Witness for C7 at the concrete POST carrying the bytes `Hi`. -/
theorem upload_success_200_witness :
    responseOf (serveMux postFileReq CopyOutcome.ok) =
      some (200, "File upload successful\n") ∧
    Event.closeFile ∈ serveMux postFileReq CopyOutcome.ok ∧
    (CopyOutcome.ok = CopyOutcome.ok →
      stdoutWrites (serveMux postFileReq CopyOutcome.ok) = [[72, 105]]) :=
  upload_success_200 postFileReq CopyOutcome.ok [72, 105] rfl rfl rfl

/-- Claim C8: in both the DNS and the ICMP receive loop, a receive
error is logged and the loop continues, and the replies produced for
the remaining iterations are unaffected by the error. -/
theorem recv_error_logged_loop_continues (e : String) (rest : List RecvEvent) :
    echoLoopBody dnsBufSize (RecvEvent.recvErr e) =
      ([LoopEvent.logRecvError e], LoopOutcome.continueLoop) ∧
    echoLoopBody icmpBufSize (RecvEvent.recvErr e) =
      ([LoopEvent.logRecvError e], LoopOutcome.continueLoop) ∧
    loopReplies (echoLoopTrace dnsBufSize (RecvEvent.recvErr e :: rest)) =
      loopReplies (echoLoopTrace dnsBufSize rest) ∧
    loopReplies (echoLoopTrace icmpBufSize (RecvEvent.recvErr e :: rest)) =
      loopReplies (echoLoopTrace icmpBufSize rest) := by
  refine ⟨rfl, rfl, ?_, ?_⟩ <;>
    simp [echoLoopTrace, echoLoopBody, loopReplies]

/-- Enumeration of the possible responses of the HTTP mux: every request
is answered with 200 and the root body, 405, 400, or 200 and the upload
success body. -/
theorem serveMux_response_cases (r : Request) (c : CopyOutcome) :
    responseOf (serveMux r c) = some (200, httpOkBody) ∨
    responseOf (serveMux r c) = some (405, "Invalid method\n") ∨
    responseOf (serveMux r c) = some (400, "Failed to get file\n") ∨
    responseOf (serveMux r c) = some (200, "File upload successful\n") := by
  by_cases hp : r.path = "/upload"
  · by_cases hm : r.method = "POST"
    · cases hf : r.formFile with
      | error e =>
        right; right; left
        simp [serveMux, hp, uploadHandler, hm, hf, responseOf]
      | ok content =>
        right; right; right
        simp [serveMux, hp, uploadHandler, hm, hf, responseOf]
    · right; left
      simp [serveMux, hp, uploadHandler, hm, responseOf]
  · left
    simp [serveMux, hp, rootHandler, responseOf]

/-- Claim C9: every request whose path is not `/upload` is handled by
the catch-all root handler and answered with status 200 and the fixed
body; no request to the mux is ever answered with 404. -/
theorem http_root_catch_all (r : Request) (c : CopyOutcome) :
    (r.path ≠ "/upload" → responseOf (serveMux r c) = some (200, httpOkBody)) ∧
    ∀ s b, responseOf (serveMux r c) = some (s, b) → s ≠ 404 := by
  constructor
  · intro h
    simp [serveMux, h, rootHandler, responseOf]
  · intro s b hsb
    rcases serveMux_response_cases r c with h | h | h | h <;>
      rw [h] at hsb <;> injection hsb with hsb <;>
        injection hsb with hs _ <;> omega

/-- Witness for C9 at the concrete request to the unregistered path
`/missing`: answered 200 with the fixed body, and 200 is not 404. -/
theorem http_root_catch_all_witness :
    responseOf (serveMux otherPathReq CopyOutcome.ok) = some (200, httpOkBody) ∧
    (200 : Nat) ≠ 404 := by
  have h := http_root_catch_all otherPathReq CopyOutcome.ok
  exact ⟨h.1 (by decide), h.2 200 httpOkBody (h.1 (by decide))⟩

/-- Claim C10: a POST to the upload route with a valid `file` field is
answered with status 200 and the success message even when the stdout
copy fails after `k` bytes — the copy error is discarded — and in that
case only the first `k` bytes reach stdout, so when the failure is
strictly inside the content a 200 response coexists with the content
not having been fully written. -/
theorem upload_copy_error_still_200 (r : Request) (content : Bytes) (k : Nat)
    (hpath : r.path = "/upload") (hm : r.method = "POST")
    (hf : r.formFile = Except.ok content) :
    responseOf (serveMux r (CopyOutcome.failAfter k)) =
      some (200, "File upload successful\n") ∧
    stdoutWrites (serveMux r (CopyOutcome.failAfter k)) = [content.take k] ∧
    (k < content.length →
      stdoutWrites (serveMux r (CopyOutcome.failAfter k)) ≠ [content]) := by
  refine ⟨?_, ?_, ?_⟩
  · simp [serveMux, hpath, uploadHandler, hm, hf, responseOf]
  · simp [serveMux, hpath, uploadHandler, hm, hf, stdoutWrites, copiedBytes]
  · intro hk hEq
    simp [serveMux, hpath, uploadHandler, hm, hf, stdoutWrites, copiedBytes] at hEq
    omega

/-- Witness for C10 at the concrete POST carrying `Hi`, with the copy
failing after one byte. -/
theorem upload_copy_error_still_200_witness :
    responseOf (serveMux postFileReq (CopyOutcome.failAfter 1)) =
      some (200, "File upload successful\n") ∧
    stdoutWrites (serveMux postFileReq (CopyOutcome.failAfter 1)) ≠
      [[72, 105]] := by
  have h := upload_copy_error_still_200 postFileReq [72, 105] 1 rfl rfl rfl
  exact ⟨h.1, h.2.2 (by decide)⟩
